import Mathlib

/-!
Shallow embedding of the GPTLov retrieval pipeline
(`src/gptlov/bot.py`, `src/gptlov/index.py`, `src/gptlov/data_pipeline.py`,
`src/gptlov/settings.py`) and proofs about its specified behaviour.

External libraries (sklearn's `TfidfVectorizer` and `cosine_similarity`,
numpy, joblib, httpx, the OpenAI client) are modelled as parameters:
the fitted vectorizer is an abstract map from a text to a weight vector,
cosine similarity is an abstract score function into `ℚ`, serialization is
a lossless key-value file system, and HTTP transfers are an oracle saying
whether a given request succeeds.  `np.argsort` is modelled as the
deterministic stable ascending sort (ties keep the ascending index order
of `np.arange`); reversing it therefore puts equal scores in descending
index order, exactly as `np.argsort(scores)[::-1]` does.
-/

/-- Metadata record built per chunk by `build_vector_store` (index.py, lines 44-52). -/
structure DocMetadata where
  title : String
  refid : String
  source_path : String
  content : String
deriving DecidableEq

/-- Result metadata after `retrieve` strips the `content` key (bot.py, line 59). -/
structure MetaRest where
  title : String
  refid : String
  source_path : String
deriving DecidableEq

/-- `RetrievalResult` dataclass (bot.py, lines 16-20); scores are modelled in `ℚ`. -/
structure RetrievalResult where
  score : ℚ
  content : String
  metadata : MetaRest
deriving DecidableEq

/-- `VectorStore` (index.py, lines 12-18): a fitted vectorizer (abstract map from
text to a weight vector of type `α`), the document-term matrix as its list of
rows, and the aligned metadata list. -/
structure VectorStore (α : Type) where
  vectorizer : String → α
  matrix : List α
  metadata : List DocMetadata

/-- Python `top_k = top_k or settings.top_k` (bot.py, line 47): `None` and `0`
are falsy, so both fall back to the configured default. -/
def resolveTopK (topK : Option ℕ) (defaultTopK : ℕ) : ℕ :=
  match topK with
  | none => defaultTopK
  | some k => if k = 0 then defaultTopK else k

/-- Comparison used to model `np.argsort` on the score array: ascending score,
ties broken by ascending position (the stable order of `np.arange`). -/
def argRel (scores : List ℚ) (i j : ℕ) : Prop :=
  scores.getD i 0 < scores.getD j 0 ∨ (scores.getD i 0 = scores.getD j 0 ∧ i ≤ j)

instance (scores : List ℚ) : DecidableRel (argRel scores) := fun i j => by
  unfold argRel; infer_instance

instance (scores : List ℚ) : IsTotal ℕ (argRel scores) := ⟨by
  intro i j
  rcases lt_trichotomy (scores.getD i 0) (scores.getD j 0) with h | h | h
  · exact Or.inl (Or.inl h)
  · rcases le_total i j with hij | hij
    · exact Or.inl (Or.inr ⟨h, hij⟩)
    · exact Or.inr (Or.inr ⟨h.symm, hij⟩)
  · exact Or.inr (Or.inl h)⟩

instance (scores : List ℚ) : IsTrans ℕ (argRel scores) := ⟨by
  intro i j k hij hjk
  rcases hij with h1 | ⟨e1, l1⟩ <;> rcases hjk with h2 | ⟨e2, l2⟩
  · exact Or.inl (h1.trans h2)
  · exact Or.inl (lt_of_lt_of_le h1 (le_of_eq e2))
  · exact Or.inl (lt_of_le_of_lt (le_of_eq e1) h2)
  · exact Or.inr ⟨e1.trans e2, l1.trans l2⟩⟩

/-- Model of `np.argsort(scores)`: the indices `0 .. n-1` sorted ascending by
score, equal scores kept in ascending index order. -/
def argsort (scores : List ℚ) : List ℕ :=
  List.insertionSort (argRel scores) (List.range scores.length)

/-- Scores of every document against the query, as in
`cosine_similarity(self.store.matrix, query_vector).ravel()` (bot.py, line 49);
`sim` abstracts sklearn's cosine similarity. -/
def cosineScores {α : Type} (sim : α → α → ℚ) (store : VectorStore α)
    (question : String) : List ℚ :=
  store.matrix.map fun row => sim row (store.vectorizer question)

/-- Selected row indices `np.argsort(scores)[::-1][:top_k]` (bot.py, line 51). -/
def topIndicesOf {α : Type} (sim : α → α → ℚ) (store : VectorStore α)
    (question : String) (topK : Option ℕ) (defaultTopK : ℕ) : List ℕ :=
  (argsort (cosineScores sim store question)).reverse.take (resolveTopK topK defaultTopK)

/-- Body of the loop in bot.py, lines 53-61: look up the metadata record aligned
with row `idx` and split `content` from the remaining metadata keys. -/
def resultAt {α : Type} (store : VectorStore α) (scores : List ℚ) (idx : ℕ) :
    RetrievalResult :=
  let m := store.metadata.getD idx ⟨"", "", "", ""⟩
  { score := scores.getD idx 0
    content := m.content
    metadata := ⟨m.title, m.refid, m.source_path⟩ }

/-- `GPTLovBot.retrieve` (bot.py, lines 46-62): resolve `top_k`, score all rows,
take the first `top_k` indices of the reversed argsort, and build a
`RetrievalResult` from the aligned metadata record, splitting out `content`. -/
def GPTLovBot.retrieve {α : Type} (sim : α → α → ℚ) (store : VectorStore α)
    (question : String) (topK : Option ℕ) (defaultTopK : ℕ) : List RetrievalResult :=
  (topIndicesOf sim store question topK defaultTopK).map
    (resultAt store (cosineScores sim store question))

theorem argsort_perm (scores : List ℚ) :
    (argsort scores).Perm (List.range scores.length) :=
  List.perm_insertionSort _ _

theorem length_argsort (scores : List ℚ) : (argsort scores).length = scores.length := by
  simpa using (argsort_perm scores).length_eq

theorem mem_argsort {scores : List ℚ} {i : ℕ} :
    i ∈ argsort scores ↔ i < scores.length := by
  rw [(argsort_perm scores).mem_iff, List.mem_range]

theorem sorted_argsort (scores : List ℚ) :
    List.Sorted (argRel scores) (argsort scores) :=
  List.sorted_insertionSort _ _

theorem argRel_le {scores : List ℚ} {i j : ℕ} (h : argRel scores i j) :
    scores.getD i 0 ≤ scores.getD j 0 := by
  rcases h with h | ⟨e, _⟩
  · exact le_of_lt h
  · exact le_of_eq e

theorem pairwise_topIndicesOf {α : Type} (sim : α → α → ℚ) (store : VectorStore α)
    (question : String) (topK : Option ℕ) (d : ℕ) {R : ℕ → ℕ → Prop}
    (h : ∀ i j, argRel (cosineScores sim store question) j i → R i j) :
    (topIndicesOf sim store question topK d).Pairwise R := by
  apply List.Pairwise.sublist (List.take_sublist _ _)
  apply List.pairwise_reverse.2
  exact (sorted_argsort _).imp fun hab => h _ _ hab

/-- Similarity function of the concrete examples below: on one-dimensional
weight vectors it returns the document's weight, so a document's score is
simply its matrix entry. -/
def projSim (a _b : ℚ) : ℚ := a

/-- Concrete three-document store used by witnesses. -/
def sampleStore : VectorStore ℚ :=
  ⟨fun _ => 1, [2, 1, 3],
    [⟨"t0", "r0", "p0", "c0"⟩, ⟨"t1", "r1", "p1", "c1"⟩, ⟨"t2", "r2", "p2", "c2"⟩]⟩

/-- Concrete two-document store whose documents score identically on every
query, exercising the tie-break. -/
def tieStore : VectorStore ℚ :=
  ⟨fun _ => 1, [1, 1], [⟨"t0", "r0", "p0", "a"⟩, ⟨"t1", "r1", "p1", "b"⟩]⟩

/-- C1: for every store, question and positive `topK`, `GPTLovBot.retrieve`
returns a list whose length is the minimum of `topK` and the number of
documents (matrix rows) of the store, ordered by non-increasing score. -/
theorem retrieve_length_and_score_order {α : Type} (sim : α → α → ℚ)
    (store : VectorStore α) (question : String) (k d : ℕ) (hk : 0 < k) :
    (GPTLovBot.retrieve sim store question (some k) d).length
        = min k store.matrix.length ∧
    (GPTLovBot.retrieve sim store question (some k) d).Pairwise
        (fun a b => b.score ≤ a.score) := by
  constructor
  · simp [GPTLovBot.retrieve, topIndicesOf, resolveTopK, hk.ne', length_argsort,
      cosineScores]
  · apply List.pairwise_map.2
    apply pairwise_topIndicesOf
    intro i j hji
    simpa [resultAt] using argRel_le hji

/-- Witness for C1: the sample store with three documents and `topK = 2`. -/
theorem retrieve_length_and_score_order_witness :
    (0:ℕ) < 2 ∧
    ((GPTLovBot.retrieve projSim sampleStore "q" (some 2) 5).length
        = min 2 sampleStore.matrix.length ∧
      (GPTLovBot.retrieve projSim sampleStore "q" (some 2) 5).Pairwise
        (fun a b => b.score ≤ a.score)) :=
  ⟨by decide, retrieve_length_and_score_order projSim sampleStore "q" 2 5 (by decide)⟩

/-- C2 counterexample: on a two-document store whose documents score equally,
`retrieve` returns the results in DESCENDING original index order (contents
`["b", "a"]`), not the ascending order the claim states: reversing the
ascending argsort flips the order of equal-score ties. -/
theorem retrieve_tie_ascending_counterexample :
    cosineScores projSim tieStore "q" = [1, 1] ∧
    (GPTLovBot.retrieve projSim tieStore "q" (some 2) 5).map RetrievalResult.content
      = ["b", "a"] ∧
    ¬ ((GPTLovBot.retrieve projSim tieStore "q" (some 2) 5).map RetrievalResult.content
      = ["a", "b"]) := by decide

/-- C2 amended: `retrieve` maps the selected index list in order, and whenever
two selected indices have equal similarity scores the later-listed index is the
smaller one, i.e. equal-score ties are ordered by descending original document
index. -/
theorem retrieve_tie_break_descending {α : Type} (sim : α → α → ℚ)
    (store : VectorStore α) (question : String) (topK : Option ℕ) (d : ℕ) :
    GPTLovBot.retrieve sim store question topK d
      = (topIndicesOf sim store question topK d).map
          (resultAt store (cosineScores sim store question)) ∧
    (topIndicesOf sim store question topK d).Pairwise
      (fun i j => (cosineScores sim store question).getD i 0
          = (cosineScores sim store question).getD j 0 → j ≤ i) := by
  refine ⟨rfl, ?_⟩
  apply pairwise_topIndicesOf
  intro i j hji heq
  rcases hji with h | ⟨_, hj⟩
  · exact absurd (heq ▸ h) (lt_irrefl _)
  · exact hj

/-- `DocumentChunk` record as consumed by `build_vector_store`.  The chunking
code (`ingest.py`) is an external collaborator; only the four fields read in
index.py, lines 43-52 are modelled. -/
structure DocumentChunk where
  text : String
  title : String
  refid : String
  source_path : String
deriving DecidableEq

/-- Storage holding serialized vector-store artifacts, keyed by path.  Joblib
serialization (index.py, lines 22-29 and 33) is external and modelled as
lossless: a saved bundle is exactly the triple of fields it was built from. -/
def ArtifactFS (α : Type) : Type := List (String × VectorStore α)

/-- `VectorStore.save` (index.py, lines 20-29): write the
vectorizer/matrix/metadata bundle at `path` (newest entry shadows older ones). -/
def VectorStore.save {α : Type} (store : VectorStore α) (path : String)
    (fs : ArtifactFS α) : ArtifactFS α :=
  (path, store) :: fs

/-- `VectorStore.load` (index.py, lines 31-34): read the bundle back, failing
if no artifact exists at `path`. -/
def VectorStore.load {α : Type} (fs : ArtifactFS α) (path : String) :
    Except String (VectorStore α) :=
  match List.lookup path fs with
  | some store => Except.ok store
  | none => Except.error ("no artifact at " ++ path)

/-- Store constructed by index.py, lines 43-61.  `fit` abstracts
`TfidfVectorizer(...).fit` over the corpus texts, yielding the fitted
transform; `fit_transform(texts)` is that transform applied to each text in
order, so row `i` is the weight vector of `texts[i]`. -/
def builtStore {α : Type} (fit : List String → String → α)
    (chunks : List DocumentChunk) : VectorStore α :=
  let texts := chunks.map DocumentChunk.text
  { vectorizer := fit texts
    matrix := texts.map (fit texts)
    metadata := chunks.map fun c => ⟨c.title, c.refid, c.source_path, c.text⟩ }

/-- `build_vector_store` (index.py, lines 37-64): guard against an empty
corpus, then build the store, save it at `<workspace_dir>/vector_store.pkl`
and return that path together with the updated storage. -/
def build_vector_store {α : Type} (fit : List String → String → α)
    (chunks : List DocumentChunk) (workspace_dir : String) (fs : ArtifactFS α) :
    Except String String × ArtifactFS α :=
  if chunks.isEmpty then
    (Except.error "No document chunks provided. Did you extract the archives?", fs)
  else
    let path := workspace_dir ++ "/vector_store.pkl"
    ((Except.ok path), (builtStore fit chunks).save path fs)

/-- C3: building a vector store from the empty chunk sequence always fails
with the empty-corpus error and performs no write: the storage is returned
exactly as it was. -/
theorem build_vector_store_empty {α : Type} (fit : List String → String → α)
    (workspace_dir : String) (fs : ArtifactFS α) :
    build_vector_store fit [] workspace_dir fs
      = (Except.error "No document chunks provided. Did you extract the archives?", fs) :=
  rfl

/-- C5: for a store built from a non-empty chunk sequence, `build_vector_store`
saves it at the canonical path, `load` after `save` reconstructs exactly the
same store, and the reconstructed store yields the same similarity scores and
the same `retrieve` ranking as the in-memory one for every question and topK. -/
theorem load_save_roundtrip {α : Type} (fit : List String → String → α)
    (chunks : List DocumentChunk) (h : chunks ≠ []) (workspace_dir : String)
    (fs : ArtifactFS α) (sim : α → α → ℚ) (question : String) (topK : Option ℕ)
    (d : ℕ) :
    build_vector_store fit chunks workspace_dir fs
        = (Except.ok (workspace_dir ++ "/vector_store.pkl"),
            (builtStore fit chunks).save (workspace_dir ++ "/vector_store.pkl") fs) ∧
    VectorStore.load
        ((builtStore fit chunks).save (workspace_dir ++ "/vector_store.pkl") fs)
        (workspace_dir ++ "/vector_store.pkl")
      = Except.ok (builtStore fit chunks) ∧
    (VectorStore.load
        ((builtStore fit chunks).save (workspace_dir ++ "/vector_store.pkl") fs)
        (workspace_dir ++ "/vector_store.pkl")).map
        (fun s => cosineScores sim s question)
      = Except.ok (cosineScores sim (builtStore fit chunks) question) ∧
    (VectorStore.load
        ((builtStore fit chunks).save (workspace_dir ++ "/vector_store.pkl") fs)
        (workspace_dir ++ "/vector_store.pkl")).map
        (fun s => GPTLovBot.retrieve sim s question topK d)
      = Except.ok (GPTLovBot.retrieve sim (builtStore fit chunks) question topK d) := by
  have hload : VectorStore.load
      ((builtStore fit chunks).save (workspace_dir ++ "/vector_store.pkl") fs)
      (workspace_dir ++ "/vector_store.pkl") = Except.ok (builtStore fit chunks) := by
    simp [VectorStore.load, VectorStore.save]
  refine ⟨?_, hload, by rw [hload]; rfl, by rw [hload]; rfl⟩
  cases chunks with
  | nil => exact absurd rfl h
  | cons c cs => rfl

/-- Witness for C5: a one-chunk corpus with a constant fitted vectorizer. -/
theorem load_save_roundtrip_witness :
    ([⟨"hello", "T", "R", "P"⟩] : List DocumentChunk) ≠ [] ∧
    (build_vector_store (fun _ _ => (1:ℚ)) [⟨"hello", "T", "R", "P"⟩] "ws" []
        = (Except.ok ("ws" ++ "/vector_store.pkl"),
            (builtStore (fun _ _ => (1:ℚ)) [⟨"hello", "T", "R", "P"⟩]).save
              ("ws" ++ "/vector_store.pkl") []) ∧
      VectorStore.load
          ((builtStore (fun _ _ => (1:ℚ)) [⟨"hello", "T", "R", "P"⟩]).save
            ("ws" ++ "/vector_store.pkl") []) ("ws" ++ "/vector_store.pkl")
        = Except.ok (builtStore (fun _ _ => (1:ℚ)) [⟨"hello", "T", "R", "P"⟩]) ∧
      (VectorStore.load
          ((builtStore (fun _ _ => (1:ℚ)) [⟨"hello", "T", "R", "P"⟩]).save
            ("ws" ++ "/vector_store.pkl") []) ("ws" ++ "/vector_store.pkl")).map
          (fun s => cosineScores projSim s "q")
        = Except.ok
            (cosineScores projSim (builtStore (fun _ _ => (1:ℚ)) [⟨"hello", "T", "R", "P"⟩]) "q") ∧
      (VectorStore.load
          ((builtStore (fun _ _ => (1:ℚ)) [⟨"hello", "T", "R", "P"⟩]).save
            ("ws" ++ "/vector_store.pkl") []) ("ws" ++ "/vector_store.pkl")).map
          (fun s => GPTLovBot.retrieve projSim s "q" (some 1) 5)
        = Except.ok
            (GPTLovBot.retrieve projSim (builtStore (fun _ _ => (1:ℚ)) [⟨"hello", "T", "R", "P"⟩])
              "q" (some 1) 5)) :=
  ⟨List.cons_ne_nil _ _,
    load_save_roundtrip (fun _ _ => (1:ℚ)) [⟨"hello", "T", "R", "P"⟩]
      (List.cons_ne_nil _ _) "ws" [] projSim "q" (some 1) 5⟩

theorem mem_topIndicesOf_lt {α : Type} {sim : α → α → ℚ} {store : VectorStore α}
    {question : String} {topK : Option ℕ} {d : ℕ} {i : ℕ}
    (h : i ∈ topIndicesOf sim store question topK d) :
    i < (cosineScores sim store question).length := by
  have h1 : i ∈ (argsort (cosineScores sim store question)).reverse :=
    List.mem_of_mem_take h
  exact mem_argsort.1 (List.mem_reverse.1 h1)

/-- C6: the store built from a non-empty chunk sequence is aligned: row `i` of
the matrix is the fitted weight vector of `chunks[i].text`, `metadata[i]`
records that same chunk with `content` equal to `chunks[i].text`, and
`retrieve` maps every selected row index back through `metadata`, so each
result's content is the full original text of the scored document and its
score is that same row's similarity to the query vector. -/
theorem built_store_alignment {α : Type} (fit : List String → String → α)
    (sim : α → α → ℚ) (chunks : List DocumentChunk) (question : String)
    (topK : Option ℕ) (d : ℕ) :
    (∀ i (hi : i < chunks.length),
      (builtStore fit chunks).matrix[i]?
          = some (fit (chunks.map DocumentChunk.text) chunks[i].text) ∧
      (builtStore fit chunks).metadata[i]?
          = some ⟨chunks[i].title, chunks[i].refid, chunks[i].source_path,
              chunks[i].text⟩) ∧
    ∀ r ∈ GPTLovBot.retrieve sim (builtStore fit chunks) question topK d,
      ∃ i, ∃ hi : i < chunks.length,
        r.content = chunks[i].text ∧
        r.score = sim (fit (chunks.map DocumentChunk.text) chunks[i].text)
            ((builtStore fit chunks).vectorizer question) := by
  constructor
  · intro i hi
    constructor
    · simp [builtStore, List.getElem?_map, List.getElem?_eq_getElem hi]
    · simp [builtStore, List.getElem?_map, List.getElem?_eq_getElem hi]
  · intro r hr
    have hr' : r ∈ (topIndicesOf sim (builtStore fit chunks) question topK d).map
        (resultAt (builtStore fit chunks)
          (cosineScores sim (builtStore fit chunks) question)) := hr
    obtain ⟨idx, hidx, rfl⟩ := List.mem_map.1 hr'
    have hlen : idx < (cosineScores sim (builtStore fit chunks) question).length :=
      mem_topIndicesOf_lt hidx
    have hc : idx < chunks.length := by
      simpa [cosineScores, builtStore] using hlen
    refine ⟨idx, hc, ?_, ?_⟩
    · simp [resultAt, builtStore, List.getElem?_map, List.getElem?_eq_getElem hc]
    · simp [resultAt, cosineScores, builtStore, List.getElem?_map,
        List.getElem?_eq_getElem hc]

/-- Fixed fallback notice (bot.py, lines 69-72), including its trailing blank
line before the excerpts. -/
def fallbackNotice : String :=
  "No OpenAI API key configured. Here are the most relevant excerpts:\n\n"

/-- Label of a context block in the prompt (bot.py, line 75): Python
`metadata.get('title') or metadata.get('refid') or metadata.get('source_path')`
where empty strings are falsy. -/
def blockLabel (m : MetaRest) : String :=
  if m.title ≠ "" then m.title else if m.refid ≠ "" then m.refid else m.source_path

/-- System instruction of the prompt (bot.py, lines 82-86). -/
def systemInstruction : String :=
  "Du er GPTLov, en hjelpsom assistent som svarer på spørsmål om norske lover og " ++
  "sentrale forskrifter. Oppgi kun informasjon hentet fra konteksten. Hvis svaret " ++
  "ikke finnes i utdragene, si at du ikke er sikker."

/-- Context section of the user turn (bot.py, lines 74-77). -/
def contextText (blocks : List RetrievalResult) : String :=
  String.intercalate "\n\n"
    (blocks.map fun b => "Kilde: " ++ blockLabel b.metadata ++ "\n" ++ b.content)

/-- User turn of the prompt (bot.py, lines 88-93). -/
def userContent (question : String) (blocks : List RetrievalResult) : String :=
  "Kontekst:\n" ++ contextText blocks ++ "\n\n" ++ "Spørsmål: " ++ question ++ "\n"
    ++ "Svar på norsk."

/-- `GPTLovBot.generate_answer` (bot.py, lines 64-102).  `apiKey` models
`os.getenv("OPENAI_API_KEY")` (`none` = unset); `_ensure_client` raises iff the
key is unset or empty (Python `if not api_key`), which `generate_answer`
catches and turns into the fallback answer.  `complete` abstracts the external
chat-completion service; the second component counts completion calls. -/
def GPTLovBot.generate_answer (apiKey : Option String)
    (complete : List (String × String) → String) (question : String)
    (context_blocks : List RetrievalResult) : String × ℕ :=
  if apiKey.getD "" = "" then
    (fallbackNotice
      ++ String.intercalate "\n\n" (context_blocks.map RetrievalResult.content), 0)
  else
    let messages := [("system", systemInstruction),
      ("user", userContent question context_blocks)]
    ((complete messages).trim, 1)

/-- Entry of the `contexts` field of `ask` (bot.py, lines 109-116): score, the
metadata keys, and the content merged back into one record. -/
structure ContextEntry where
  score : ℚ
  title : String
  refid : String
  source_path : String
  content : String
deriving DecidableEq

/-- Return value of `ask` (bot.py, lines 107-117), with the completion-call
count carried along. -/
structure AskResult where
  answer : String
  contexts : List ContextEntry
  calls : ℕ
deriving DecidableEq

/-- `GPTLovBot.ask` (bot.py, lines 104-117): retrieve context, generate the
answer, and report both with the contexts flattened back to full records. -/
def GPTLovBot.ask {α : Type} (sim : α → α → ℚ) (store : VectorStore α)
    (apiKey : Option String) (complete : List (String × String) → String)
    (question : String) (topK : Option ℕ) (defaultTopK : ℕ) : AskResult :=
  let context_blocks := GPTLovBot.retrieve sim store question topK defaultTopK
  let ans := GPTLovBot.generate_answer apiKey complete question context_blocks
  { answer := ans.1
    contexts := context_blocks.map fun b =>
      ⟨b.score, b.metadata.title, b.metadata.refid, b.metadata.source_path, b.content⟩
    calls := ans.2 }

/-- C4: when no API key is configured (unset or empty), `ask` makes no
completion-service call and its answer is exactly the fixed fallback notice
followed by the retrieved excerpts' contents, in retrieval order, joined by
blank lines. -/
theorem ask_no_key_fallback {α : Type} (sim : α → α → ℚ) (store : VectorStore α)
    (apiKey : Option String) (complete : List (String × String) → String)
    (question : String) (topK : Option ℕ) (d : ℕ) (h : apiKey.getD "" = "") :
    (GPTLovBot.ask sim store apiKey complete question topK d).answer
        = fallbackNotice ++ String.intercalate "\n\n"
            ((GPTLovBot.retrieve sim store question topK d).map
              RetrievalResult.content) ∧
    (GPTLovBot.ask sim store apiKey complete question topK d).calls = 0 := by
  constructor <;> simp [GPTLovBot.ask, GPTLovBot.generate_answer, h]

/-- Witness for C4: the sample store with the key unset. -/
theorem ask_no_key_fallback_witness :
    (none : Option String).getD "" = "" ∧
    ((GPTLovBot.ask projSim sampleStore none (fun _ => "m") "q" (some 2) 5).answer
        = fallbackNotice ++ String.intercalate "\n\n"
            ((GPTLovBot.retrieve projSim sampleStore "q" (some 2) 5).map
              RetrievalResult.content) ∧
      (GPTLovBot.ask projSim sampleStore none (fun _ => "m") "q" (some 2) 5).calls = 0) :=
  ⟨rfl, ask_no_key_fallback projSim sampleStore none (fun _ => "m") "q" (some 2) 5 rfl⟩

/-- C10: calling `retrieve` (and hence `ask`) with `top_k = 0` does not return
an empty sequence: `0` is falsy in `top_k or settings.top_k`, so the
configured default is used and `min default corpus` results come back. -/
theorem retrieve_topk_zero_uses_default {α : Type} (sim : α → α → ℚ)
    (store : VectorStore α) (apiKey : Option String)
    (complete : List (String × String) → String) (question : String) (d : ℕ)
    (hd : 0 < d) (hn : 0 < store.matrix.length) :
    (GPTLovBot.retrieve sim store question (some 0) d).length
        = min d store.matrix.length ∧
    GPTLovBot.retrieve sim store question (some 0) d ≠ [] ∧
    (GPTLovBot.ask sim store apiKey complete question (some 0) d).contexts.length
        = min d store.matrix.length := by
  have h1 : (GPTLovBot.retrieve sim store question (some 0) d).length
      = min d store.matrix.length := by
    simp [GPTLovBot.retrieve, topIndicesOf, resolveTopK, length_argsort, cosineScores]
  have hpos : 0 < min d store.matrix.length := lt_min hd hn
  refine ⟨h1, ?_, ?_⟩
  · intro hnil
    rw [hnil] at h1
    simp at h1
    omega
  · simp [GPTLovBot.ask, h1]

/-- Witness for C10: `top_k = 0` on the three-document sample store with
default top-K `5` yields all three documents. -/
theorem retrieve_topk_zero_uses_default_witness :
    (0:ℕ) < 5 ∧ 0 < sampleStore.matrix.length ∧
    ((GPTLovBot.retrieve projSim sampleStore "q" (some 0) 5).length
        = min 5 sampleStore.matrix.length ∧
      GPTLovBot.retrieve projSim sampleStore "q" (some 0) 5 ≠ [] ∧
      (GPTLovBot.ask projSim sampleStore none (fun _ => "m") "q" (some 0) 5).contexts.length
        = min 5 sampleStore.matrix.length) :=
  ⟨by decide, by decide,
    retrieve_topk_zero_uses_default projSim sampleStore none (fun _ => "m") "q" 5
      (by decide) (by decide)⟩

/-- State of the archive-acquisition world (data_pipeline.py): which paths
exist on disk and how many HTTP GET requests have been issued so far. -/
structure PipeState where
  files : List String
  downloads : ℕ
deriving DecidableEq

/-- `download_archive` (data_pipeline.py, lines 28-44): if the destination file
already exists it is returned with no network request; otherwise a streaming
GET is issued (counted).  The oracle `ok` abstracts httpx: `ok name = false`
means a non-2xx response, so `raise_for_status` raises before the destination
file is opened and no file is written. -/
def download_archive (ok : String → Bool) (filename dest_dir : String)
    (st : PipeState) : Except String String × PipeState :=
  let destination := dest_dir ++ "/" ++ filename
  if destination ∈ st.files then
    (Except.ok destination, st)
  else if ok filename then
    (Except.ok destination, ⟨destination :: st.files, st.downloads + 1⟩)
  else
    (Except.error ("HTTP error for " ++ filename), ⟨st.files, st.downloads + 1⟩)

/-- `ensure_archives` (data_pipeline.py, lines 47-57): walk the archive list in
order, under `force` deleting an existing destination before re-downloading.
The loop body has no exception handler, so a raised download error propagates
and the remaining archives are not processed. -/
def ensure_archives (ok : String → Bool) (filenames : List String) (force : Bool)
    (raw_dir : String) (st : PipeState) :
    Except String (List String) × PipeState :=
  match filenames with
  | [] => (Except.ok [], st)
  | name :: rest =>
    let destination := raw_dir ++ "/" ++ name
    let st1 := if force ∧ destination ∈ st.files
      then PipeState.mk (st.files.erase destination) st.downloads else st
    match download_archive ok name raw_dir st1 with
    | (Except.error e, st2) => (Except.error e, st2)
    | (Except.ok p, st2) =>
      match ensure_archives ok rest force raw_dir st2 with
      | (Except.error e, st3) => (Except.error e, st3)
      | (Except.ok ps, st3) => (Except.ok (p :: ps), st3)

/-- C7: an existing destination is returned with no network request, so two
successive non-force acquisitions of a fresh archive perform exactly one
download, while two force acquisitions delete the file first each time and
perform two downloads. -/
theorem download_idempotent_and_force (ok : String → Bool) (name raw_dir : String)
    (st : PipeState) (hok : ok name = true)
    (habs : ¬ (raw_dir ++ "/" ++ name) ∈ st.files) :
    (∀ st' : PipeState, (raw_dir ++ "/" ++ name) ∈ st'.files →
      download_archive ok name raw_dir st'
        = (Except.ok (raw_dir ++ "/" ++ name), st')) ∧
    ((ensure_archives ok [name] false raw_dir st).2.downloads = st.downloads + 1 ∧
      (ensure_archives ok [name] false raw_dir
        (ensure_archives ok [name] false raw_dir st).2).2.downloads
        = st.downloads + 1) ∧
    ((ensure_archives ok [name] true raw_dir st).2.downloads = st.downloads + 1 ∧
      (ensure_archives ok [name] true raw_dir
        (ensure_archives ok [name] true raw_dir st).2).2.downloads
        = st.downloads + 2) := by
  refine ⟨?_, ?_, ?_⟩
  · intro st' hmem
    simp [download_archive, hmem]
  · have h1 : ensure_archives ok [name] false raw_dir st
        = (Except.ok [raw_dir ++ "/" ++ name],
            ⟨(raw_dir ++ "/" ++ name) :: st.files, st.downloads + 1⟩) := by
      simp [ensure_archives, download_archive, habs, hok]
    rw [h1]
    constructor
    · rfl
    · simp [ensure_archives, download_archive]
  · have h1 : ensure_archives ok [name] true raw_dir st
        = (Except.ok [raw_dir ++ "/" ++ name],
            ⟨(raw_dir ++ "/" ++ name) :: st.files, st.downloads + 1⟩) := by
      simp [ensure_archives, download_archive, habs, hok]
    rw [h1]
    constructor
    · rfl
    · simp [ensure_archives, download_archive, habs, hok, List.erase_cons_head]

/-- Witness for C7: a fresh archive on an empty disk with a succeeding network. -/
theorem download_idempotent_and_force_witness :
    (fun _ : String => true) "a.tar.bz2" = true ∧
    ¬ ("raw" ++ "/" ++ "a.tar.bz2") ∈ PipeState.files ⟨[], 0⟩ ∧
    ((∀ st' : PipeState, ("raw" ++ "/" ++ "a.tar.bz2") ∈ st'.files →
        download_archive (fun _ => true) "a.tar.bz2" "raw" st'
          = (Except.ok ("raw" ++ "/" ++ "a.tar.bz2"), st')) ∧
      ((ensure_archives (fun _ => true) ["a.tar.bz2"] false "raw" ⟨[], 0⟩).2.downloads
          = PipeState.downloads ⟨[], 0⟩ + 1 ∧
        (ensure_archives (fun _ => true) ["a.tar.bz2"] false "raw"
          (ensure_archives (fun _ => true) ["a.tar.bz2"] false "raw" ⟨[], 0⟩).2).2.downloads
          = PipeState.downloads ⟨[], 0⟩ + 1) ∧
      ((ensure_archives (fun _ => true) ["a.tar.bz2"] true "raw" ⟨[], 0⟩).2.downloads
          = PipeState.downloads ⟨[], 0⟩ + 1 ∧
        (ensure_archives (fun _ => true) ["a.tar.bz2"] true "raw"
          (ensure_archives (fun _ => true) ["a.tar.bz2"] true "raw" ⟨[], 0⟩).2).2.downloads
          = PipeState.downloads ⟨[], 0⟩ + 2)) :=
  ⟨rfl, by decide,
    download_idempotent_and_force (fun _ => true) "a.tar.bz2" "raw" ⟨[], 0⟩ rfl (by decide)⟩

/-- C9 counterexample: with two archives where the first download fails with a
non-2xx response, `ensure_archives` raises after one request and the second
archive is never acquired — one failure does prevent the remaining archives
from being processed. -/
theorem ensure_archives_short_circuit_counterexample :
    (ensure_archives (fun n => n == "b") ["a", "b"] false "raw" ⟨[], 0⟩).1
        = Except.error ("HTTP error for " ++ "a") ∧
    (ensure_archives (fun n => n == "b") ["a", "b"] false "raw" ⟨[], 0⟩).2
        = ⟨[], 1⟩ ∧
    ¬ ("raw" ++ "/" ++ "b")
        ∈ (ensure_archives (fun n => n == "b") ["a", "b"] false "raw" ⟨[], 0⟩).2.files := by
  refine ⟨rfl, rfl, by decide⟩

/-- C9 amended: a failing download aborts `ensure_archives` at that archive;
the result and final state are those of the failure point and do not depend on
the remaining archives, which are not processed. -/
theorem ensure_archives_aborts_on_failure (ok : String → Bool) (name : String)
    (rest : List String) (raw_dir : String) (st : PipeState)
    (habs : ¬ (raw_dir ++ "/" ++ name) ∈ st.files) (hfail : ok name = false) :
    ensure_archives ok (name :: rest) false raw_dir st
      = (Except.error ("HTTP error for " ++ name),
          ⟨st.files, st.downloads + 1⟩) := by
  simp [ensure_archives, download_archive, habs, hfail]

/-- Witness for the amended C9: the first of two archives fails. -/
theorem ensure_archives_aborts_on_failure_witness :
    ¬ ("raw" ++ "/" ++ "a") ∈ PipeState.files ⟨[], 0⟩ ∧
    (fun n : String => n == "b") "a" = false ∧
    ensure_archives (fun n => n == "b") ("a" :: ["b"]) false "raw" ⟨[], 0⟩
      = (Except.error ("HTTP error for " ++ "a"),
          ⟨PipeState.files ⟨[], 0⟩, PipeState.downloads ⟨[], 0⟩ + 1⟩) :=
  ⟨by decide, by decide,
    ensure_archives_aborts_on_failure (fun n => n == "b") "a" ["b"] "raw" ⟨[], 0⟩
      (by decide) (by decide)⟩

/-- State relevant to `_download_prebuilt_vector_store`: the content of the
canonical artifact `<workspace>/vector_store.pkl` (`none` = absent) and
whether the scratch directory `.vector_store_tmp` exists. -/
structure StoreState where
  artifact : Option String
  tmpExists : Bool
deriving DecidableEq

/-- Error kinds of `_download_prebuilt_vector_store`: a failed HTTP transfer,
a failed archive extraction, and `FileNotFoundError` when the extracted tree
contains no `vector_store.pkl`. -/
inductive FetchError where
  | network : FetchError
  | extraction : FetchError
  | artifactMissing : FetchError
deriving DecidableEq

/-- Python `str.endswith(sfx)` over the character list. -/
def strEndsWith (s sfx : String) : Bool :=
  List.isPrefixOf sfx.data.reverse s.data.reverse

/-- Python `str.lower()` over the character list. -/
def lowerStr (s : String) : String :=
  ⟨s.data.map Char.toLower⟩

/-- Tar-suffix test of data_pipeline.py, line 91. -/
def isTarExt (ext : String) : Bool :=
  strEndsWith ext ".tar.gz" || strEndsWith ext ".tgz" || strEndsWith ext ".tar.bz2"
    || strEndsWith ext ".tar"

/-- Container test combining data_pipeline.py, lines 91 and 96: the tar
suffixes or `.zip`. -/
def isContainerExt (ext : String) : Bool :=
  isTarExt ext || strEndsWith ext ".zip"

/-- `_download_prebuilt_vector_store` (data_pipeline.py, lines 60-121) as a
state transformer.  `fetch` abstracts the streaming GET (`none` = transfer
failure), `extract` abstracts tarfile/zipfile extraction of the downloaded
blob into relative-path/content pairs (`none` = extraction failure), and
`archive_ext` is `"".join(Path(urlparse(url).path).suffixes)`.  Stale scratch
is removed and recreated on entry (lines 71-74); `_finalize` (delete-then-move
of lines 84-88) installs the artifact; scratch is removed after a successful
install (lines 104, 109, 119), and no cleanup runs on the failure paths. -/
def download_prebuilt_vector_store (fetch : Option String)
    (extract : String → Option (List (String × String)))
    (archive_ext : String) (force : Bool) (st : StoreState) :
    Except FetchError Unit × StoreState :=
  if st.artifact.isSome ∧ ¬ force then
    (Except.ok (), st)
  else
    let st1 : StoreState := ⟨st.artifact, true⟩
    match fetch with
    | none => (Except.error FetchError.network, st1)
    | some blob =>
      if isContainerExt (lowerStr archive_ext) then
        match extract blob with
        | none => (Except.error FetchError.extraction, st1)
        | some files =>
          match files.find? (fun f => strEndsWith f.1 "vector_store.pkl") with
          | none => (Except.error FetchError.artifactMissing, st1)
          | some f => (Except.ok (), ⟨some f.2, false⟩)
      else
        (Except.ok (), ⟨some blob, false⟩)

/-- C8 counterexample: a failed download (and likewise a failed extraction)
leaves the scratch directory behind — it started absent, the run fails, and
`tmpExists` is still `true` afterwards, so scratch state is NOT cleaned up on
failure (there is no try/finally; stale scratch is only removed at the start
of the next invocation). -/
theorem prebuilt_scratch_left_on_failure_counterexample :
    download_prebuilt_vector_store none (fun _ => none) ".tar.bz2" false
        ⟨none, false⟩
      = (Except.error FetchError.network, ⟨none, true⟩) ∧
    download_prebuilt_vector_store (some "blob") (fun _ => none) ".tar.bz2" false
        ⟨none, false⟩
      = (Except.error FetchError.extraction, ⟨none, true⟩) :=
  ⟨rfl, rfl⟩

/-- C8 amended: on every failure (download, extraction, or missing artifact)
the canonical artifact is left exactly as it was — a previously good artifact
stays intact and no partial file appears — and an extracted archive with no
`vector_store.pkl` fails with the distinct artifact-not-found error; scratch
state is cleaned up on success, but on failure the scratch directory is left
behind (it is only removed at the start of the next invocation). -/
theorem prebuilt_atomicity_and_errors (fetch : Option String)
    (extract : String → Option (List (String × String)))
    (archive_ext : String) (force : Bool) (st : StoreState) :
    (∀ e st', download_prebuilt_vector_store fetch extract archive_ext force st
        = (Except.error e, st') →
      st'.artifact = st.artifact ∧ st'.tmpExists = true) ∧
    (∀ blob files, (st.artifact.isSome = true → force = true) →
      fetch = some blob →
      isContainerExt (lowerStr archive_ext) = true → extract blob = some files →
      files.find? (fun f => strEndsWith f.1 "vector_store.pkl") = none →
      download_prebuilt_vector_store fetch extract archive_ext force st
        = (Except.error FetchError.artifactMissing, ⟨st.artifact, true⟩)) ∧
    (∀ st', (st.artifact.isSome = true → force = true) →
      download_prebuilt_vector_store fetch extract archive_ext force st
        = (Except.ok (), st') →
      st'.tmpExists = false ∧ st'.artifact.isSome = true) := by
  refine ⟨?_, ?_, ?_⟩
  · intro e st' h
    unfold download_prebuilt_vector_store at h
    split at h
    · simp at h
    · split at h
      · obtain ⟨-, h2⟩ := Prod.mk.injEq .. |>.mp h
        subst h2
        exact ⟨rfl, rfl⟩
      · split at h
        · split at h
          · obtain ⟨-, h2⟩ := Prod.mk.injEq .. |>.mp h
            subst h2
            exact ⟨rfl, rfl⟩
          · split at h
            · obtain ⟨-, h2⟩ := Prod.mk.injEq .. |>.mp h
              subst h2
              exact ⟨rfl, rfl⟩
            · simp at h
        · simp at h
  · intro blob files hskip hfetch hext hextract hfind
    simp [download_prebuilt_vector_store, hfetch, hext, hextract, hfind]
    exact hskip
  · intro st' hskip h
    unfold download_prebuilt_vector_store at h
    split at h
    · rename_i hcond
      exact absurd (hskip hcond.1) hcond.2
    · split at h
      · simp at h
      · split at h
        · split at h
          · simp at h
          · split at h
            · simp at h
            · obtain ⟨-, h2⟩ := Prod.mk.injEq .. |>.mp h
              subst h2
              exact ⟨rfl, rfl⟩
        · obtain ⟨-, h2⟩ := Prod.mk.injEq .. |>.mp h
          subst h2
          exact ⟨rfl, rfl⟩
